import Mathlib

/-!
Shallow embedding of the Pheeno robot's sensor-state and obstacle-avoidance
core (`src/pheeno_robot.cpp`).

Sensor readings, the avoidance range and the velocity parameters are C++
`double`s in the source; they are modelled as rationals (`ℚ`), which keeps
every comparison the source performs (`<`, `>`, `std::abs ... < 5.0`)
exact and decidable.  The global `rand()` draw consumed by `randomTurn`
is modelled as an explicit natural-number argument `r` standing for the
value `rand()` returns at that call.
-/

/-- The six IR proximity readings held in `ir_sensor_vals_`, one named field
per `Pheeno::IR` channel used by the source. -/
structure IrSnapshot where
  center : ℚ
  right : ℚ
  left : ℚ
  cright : ℚ
  cleft : ℚ
  back : ℚ
deriving DecidableEq

/-- The four velocity parameters of the robot (`def_linear_vel_`,
`def_angular_vel_`, `obs_linear_vel_`, `obs_angular_vel_`). -/
structure VelocityProfile where
  def_linear : ℚ
  def_angular : ℚ
  obs_linear : ℚ
  obs_angular : ℚ
deriving DecidableEq

/-- The `(linear, angular)` pair passed by reference into
`avoidObstacleMove` / `avoidObstacleStop`. -/
structure VelocityCommand where
  linear : ℚ
  angular : ℚ
deriving DecidableEq

/-- Modelled from the spec: the order of the `Pheeno::IR` channel indices
inside the six-slot `ir_sensor_vals_` vector.  The enum lives in
`pheeno_ros/pheeno_robot.h`, which is absent from `src/`; spec §3 lists the
channels as {CENTER, RIGHT, LEFT, CRIGHT, CLEFT, BACK}, so those are taken
as slots 0..5.  Every counting result proved below is order-independent. -/
def irSensorVals (s : IrSnapshot) : List ℚ :=
  [s.center, s.right, s.left, s.cright, s.cleft, s.back]

/-- The constructor pushes six zeros into `ir_sensor_vals_`
(source lines 17-20): every proximity reading starts at 0. -/
def initialIrSnapshot : IrSnapshot :=
  { center := 0, right := 0, left := 0, cright := 0, cleft := 0, back := 0 }

/-- The loop bound in `irSensorTriggered`: the source iterates
`for (int i = 0; i < 7; i++)` (line 142), i.e. seven indices. -/
def irLoopBound : ℕ := 7

/-- The counting loop of `irSensorTriggered` after `n` iterations:
`count += 1` whenever `ir_sensor_vals_[i] < sensor_limit`.  Reading index
`i = 6` of the six-slot vector is out of bounds in the source; the value
that read observes is unspecified, so it is the explicit argument `oob`
(`List.getD` falls back to it exactly at the out-of-range index). -/
def irCountLoop (vals : List ℚ) (oob : ℚ) (limit : ℚ) : ℕ → ℕ
  | 0 => 0
  | n + 1 => irCountLoop vals oob limit n + (if vals.getD n oob < limit then 1 else 0)

/-- `PheenoRobot::irSensorTriggered` (source lines 139-152): counts the
seven scanned slots below `limit` and returns `count > 1`. -/
def irSensorTriggered (s : IrSnapshot) (oob : ℚ) (limit : ℚ) : Bool :=
  decide (1 < irCountLoop (irSensorVals s) oob limit irLoopBound)

/-- The trigger predicate as §4.2 of the spec words it: count only the
proximity channels other than BACK that read strictly below the limit, and
compare that count against 1. -/
def isTriggeredSpec (s : IrSnapshot) (limit : ℚ) : Bool :=
  decide (1 < ([s.center, s.right, s.left, s.cright, s.cleft].countP
    (fun v => decide (v < limit))))

/-- `PheenoRobot::randomTurn` (source lines 235-238):
`rand() % 10 + 1 <= 5 ? (-1.0 * angular) : angular`, with `r` the value
returned by `rand()`. -/
def randomTurn (r : ℕ) (angular : ℚ) : ℚ :=
  if r % 10 + 1 ≤ 5 then (-1 : ℚ) * angular else angular

/-- State of the mutable `(linear, angular)` pair after the near-symmetric
sub-branch inside the CENTER branch of `avoidObstacleMove` (source lines
330-335): when `|right - left| < 5.0` or both RIGHT and LEFT exceed the
range, `linear` becomes the obstacle linear velocity and `angular` a random
turn; otherwise both keep the caller's values. -/
def moveCenterSub (s : IrSnapshot) (p : VelocityProfile) (cmd : VelocityCommand)
    (range : ℚ) (r : ℕ) : ℚ × ℚ :=
  if |s.right - s.left| < 5 ∨ (s.right > range ∧ s.left > range) then
    (p.obs_linear, randomTurn r p.obs_angular)
  else
    (cmd.linear, cmd.angular)

/-- The if-else chain of `avoidObstacleMove` (source lines 328-378), before
the final `if (obs_flag) linear = obs_linear_vel_`:
returns `(linear, angular, obs_flag)`.  In the CENTER branch the source
then unconditionally overwrites `angular` with the lateral-clearance turn
(lines 337-344), so only the `linear` component of `moveCenterSub`
survives. -/
def avoidMoveCore (s : IrSnapshot) (p : VelocityProfile) (cmd : VelocityCommand)
    (range : ℚ) (r : ℕ) : ℚ × ℚ × Bool :=
  if s.center < range then
    ((moveCenterSub s p cmd range r).1,
      if s.right < s.left then (-1 : ℚ) * p.obs_angular else p.obs_angular,
      true)
  else if s.cright < range ∧ s.cleft < range then
    (cmd.linear, randomTurn r p.obs_angular, true)
  else if s.cright < range then
    (cmd.linear, (-1 : ℚ) * p.obs_angular, true)
  else if s.cleft < range then
    (cmd.linear, p.obs_angular, true)
  else if s.right < range then
    (cmd.linear, (-1 : ℚ) * p.obs_angular, true)
  else if s.left < range then
    (cmd.linear, p.obs_angular, true)
  else
    (cmd.linear, cmd.angular, false)

/-- `PheenoRobot::avoidObstacleMove` (source lines 313-388): the decision
chain followed by `if (obs_flag) linear = obs_linear_vel_` (lines 380-384);
returns the final `(linear, angular)` pair and the flag. -/
def avoidObstacleMove (s : IrSnapshot) (p : VelocityProfile) (cmd : VelocityCommand)
    (range : ℚ) (r : ℕ) : VelocityCommand × Bool :=
  ({ linear :=
      if (avoidMoveCore s p cmd range r).2.2 then p.obs_linear
      else (avoidMoveCore s p cmd range r).1,
     angular := (avoidMoveCore s p cmd range r).2.1 },
   (avoidMoveCore s p cmd range r).2.2)

/-- The if-else chain of `avoidObstacleStop` (source lines 413-456), before
the final `if (obs_flag) linear = 0.0`: returns `(linear, angular, obs_flag)`.
Identical to the move chain except that the CENTER branch has no
near-symmetric random sub-branch. -/
def avoidStopCore (s : IrSnapshot) (p : VelocityProfile) (cmd : VelocityCommand)
    (range : ℚ) (r : ℕ) : ℚ × ℚ × Bool :=
  if s.center < range then
    (cmd.linear,
      if s.right < s.left then (-1 : ℚ) * p.obs_angular else p.obs_angular,
      true)
  else if s.cright < range ∧ s.cleft < range then
    (cmd.linear, randomTurn r p.obs_angular, true)
  else if s.cright < range then
    (cmd.linear, (-1 : ℚ) * p.obs_angular, true)
  else if s.cleft < range then
    (cmd.linear, p.obs_angular, true)
  else if s.right < range then
    (cmd.linear, (-1 : ℚ) * p.obs_angular, true)
  else if s.left < range then
    (cmd.linear, p.obs_angular, true)
  else
    (cmd.linear, cmd.angular, false)

/-- `PheenoRobot::avoidObstacleStop` (source lines 398-466): the decision
chain followed by `if (obs_flag) linear = 0.0` (lines 458-462); returns the
final `(linear, angular)` pair and the flag. -/
def avoidObstacleStop (s : IrSnapshot) (p : VelocityProfile) (cmd : VelocityCommand)
    (range : ℚ) (r : ℕ) : VelocityCommand × Bool :=
  ({ linear :=
      if (avoidStopCore s p cmd range r).2.2 then 0
      else (avoidStopCore s p cmd range r).1,
     angular := (avoidStopCore s p cmd range r).2.1 },
   (avoidStopCore s p cmd range r).2.2)

example : irSensorTriggered initialIrSnapshot 0 1 = true := by decide

example : irSensorTriggered ⟨0, 20, 20, 20, 20, 20⟩ 20 10 = false := by decide

/-- C1 counterexample: with CENTER = 0, BACK = 0, every other channel at 20,
the out-of-bounds slot reading 20 and limit 10, the code returns `true`
although only one channel other than BACK is below the limit (the spec
predicts `false`); moreover raising BACK alone to 20 flips the result, so
the BACK reading does influence `irSensorTriggered`. -/
theorem irSensorTriggered_back_influences_cex :
    irSensorTriggered ⟨0, 20, 20, 20, 20, 0⟩ 20 10 = true ∧
    isTriggeredSpec ⟨0, 20, 20, 20, 20, 0⟩ 10 = false ∧
    irSensorTriggered ⟨0, 20, 20, 20, 20, 20⟩ 20 10 = false := by
  decide

/-- C1 amended: `irSensorTriggered` returns true exactly when strictly more
than one of the seven values its loop scans — all six channels, BACK
included, plus the unspecified value read out of bounds at index 6 — reads
strictly below the limit. -/
theorem irSensorTriggered_counts_all_scanned (s : IrSnapshot) (oob limit : ℚ) :
    irSensorTriggered s oob limit =
      decide (1 <
        ((if s.center < limit then 1 else 0) + (if s.right < limit then 1 else 0) +
          (if s.left < limit then 1 else 0) + (if s.cright < limit then 1 else 0) +
          (if s.cleft < limit then 1 else 0) + (if s.back < limit then 1 else 0) +
          (if oob < limit then 1 else 0) : ℕ)) := by
  simp only [irSensorTriggered, irSensorVals, irLoopBound, irCountLoop,
    List.getD_cons_zero, List.getD_cons_succ, List.getD_nil, Nat.zero_add]

/-- C3: whenever the CENTER reading is below the range, both avoidance
variants report `triggered = true` and the final angular follows the
lateral-clearance rule — `-obs_angular` when RIGHT reads below LEFT, else
`+obs_angular` — whatever every other channel reads; in the move variant
this override supersedes the random choice of the near-symmetric
sub-branch. -/
theorem center_tripped_dominates (s : IrSnapshot) (p : VelocityProfile)
    (cmd : VelocityCommand) (range : ℚ) (r : ℕ) (h : s.center < range) :
    (avoidObstacleMove s p cmd range r).2 = true ∧
    (avoidObstacleMove s p cmd range r).1.angular =
      (if s.right < s.left then -p.obs_angular else p.obs_angular) ∧
    (avoidObstacleStop s p cmd range r).2 = true ∧
    (avoidObstacleStop s p cmd range r).1.angular =
      (if s.right < s.left then -p.obs_angular else p.obs_angular) := by
  simp [avoidObstacleMove, avoidObstacleStop, avoidMoveCore, avoidStopCore, h,
    neg_one_mul]

theorem center_tripped_dominates_witness :
    (avoidObstacleMove ⟨5, 20, 20, 20, 20, 20⟩ ⟨1, 1, 3, 4⟩ ⟨1, 0⟩ 10 0).2 = true ∧
    (avoidObstacleMove ⟨5, 20, 20, 20, 20, 20⟩ ⟨1, 1, 3, 4⟩ ⟨1, 0⟩ 10 0).1.angular =
      (if (20 : ℚ) < 20 then -(4 : ℚ) else (4 : ℚ)) ∧
    (avoidObstacleStop ⟨5, 20, 20, 20, 20, 20⟩ ⟨1, 1, 3, 4⟩ ⟨1, 0⟩ 10 0).2 = true ∧
    (avoidObstacleStop ⟨5, 20, 20, 20, 20, 20⟩ ⟨1, 1, 3, 4⟩ ⟨1, 0⟩ 10 0).1.angular =
      (if (20 : ℚ) < 20 then -(4 : ℚ) else (4 : ℚ)) :=
  center_tripped_dominates ⟨5, 20, 20, 20, 20, 20⟩ ⟨1, 1, 3, 4⟩ ⟨1, 0⟩ 10 0 (by decide)

/-- C4: for every snapshot, profile, command, range and random draw, a
triggered stop variant returns `linear = 0` and a triggered move variant
returns `linear = obs_linear`. -/
theorem triggered_linear_values (s : IrSnapshot) (p : VelocityProfile)
    (cmd : VelocityCommand) (range : ℚ) (r : ℕ) :
    ((avoidObstacleStop s p cmd range r).2 = true →
      (avoidObstacleStop s p cmd range r).1.linear = 0) ∧
    ((avoidObstacleMove s p cmd range r).2 = true →
      (avoidObstacleMove s p cmd range r).1.linear = p.obs_linear) := by
  refine ⟨fun h => ?_, fun h => ?_⟩
  · simp only [avoidObstacleStop] at h ⊢
    simp [h]
  · simp only [avoidObstacleMove] at h ⊢
    simp [h]

theorem triggered_linear_values_witness :
    (avoidObstacleStop ⟨0, 0, 0, 0, 0, 0⟩ ⟨1, 1, 3, 4⟩ ⟨1, 0⟩ 10 0).1.linear = 0 ∧
    (avoidObstacleMove ⟨0, 0, 0, 0, 0, 0⟩ ⟨1, 1, 3, 4⟩ ⟨1, 0⟩ 10 0).1.linear = 3 :=
  ⟨(triggered_linear_values ⟨0, 0, 0, 0, 0, 0⟩ ⟨1, 1, 3, 4⟩ ⟨1, 0⟩ 10 0).1 (by decide),
   (triggered_linear_values ⟨0, 0, 0, 0, 0, 0⟩ ⟨1, 1, 3, 4⟩ ⟨1, 0⟩ 10 0).2 (by decide)⟩

/-- C5: when exactly one of the four flank channels is below the range and
every other channel (CENTER and BACK included) is at or above it, both
variants trigger with the deterministic turn of the priority table —
CRIGHT gives `-obs_angular`, CLEFT `+obs_angular`, RIGHT `-obs_angular`,
LEFT `+obs_angular` — and no random draw is consulted (the result does not
depend on `r`, which is universally quantified and absent from the
right-hand sides). -/
theorem single_flank_deterministic (s : IrSnapshot) (p : VelocityProfile)
    (cmd : VelocityCommand) (range : ℚ) (r : ℕ)
    (hc : range ≤ s.center) (_hb : range ≤ s.back) :
    (s.cright < range → range ≤ s.right → range ≤ s.left → range ≤ s.cleft →
      avoidObstacleMove s p cmd range r = (⟨p.obs_linear, -p.obs_angular⟩, true) ∧
      avoidObstacleStop s p cmd range r = (⟨0, -p.obs_angular⟩, true)) ∧
    (s.cleft < range → range ≤ s.right → range ≤ s.left → range ≤ s.cright →
      avoidObstacleMove s p cmd range r = (⟨p.obs_linear, p.obs_angular⟩, true) ∧
      avoidObstacleStop s p cmd range r = (⟨0, p.obs_angular⟩, true)) ∧
    (s.right < range → range ≤ s.left → range ≤ s.cright → range ≤ s.cleft →
      avoidObstacleMove s p cmd range r = (⟨p.obs_linear, -p.obs_angular⟩, true) ∧
      avoidObstacleStop s p cmd range r = (⟨0, -p.obs_angular⟩, true)) ∧
    (s.left < range → range ≤ s.right → range ≤ s.cright → range ≤ s.cleft →
      avoidObstacleMove s p cmd range r = (⟨p.obs_linear, p.obs_angular⟩, true) ∧
      avoidObstacleStop s p cmd range r = (⟨0, p.obs_angular⟩, true)) := by
  refine ⟨fun h1 h2 h3 h4 => ?_, fun h1 h2 h3 h4 => ?_,
    fun h1 h2 h3 h4 => ?_, fun h1 h2 h3 h4 => ?_⟩ <;>
    simp [avoidObstacleMove, avoidObstacleStop, avoidMoveCore, avoidStopCore,
      hc.not_lt, h1, h2.not_lt, h3.not_lt, h4.not_lt, neg_one_mul]

theorem single_flank_deterministic_witness :
    avoidObstacleMove ⟨20, 20, 20, 5, 20, 20⟩ ⟨1, 1, 3, 4⟩ ⟨1, 0⟩ 10 0 =
      (⟨3, -4⟩, true) ∧
    avoidObstacleStop ⟨20, 20, 20, 5, 20, 20⟩ ⟨1, 1, 3, 4⟩ ⟨1, 0⟩ 10 0 =
      (⟨0, -4⟩, true) :=
  (single_flank_deterministic ⟨20, 20, 20, 5, 20, 20⟩ ⟨1, 1, 3, 4⟩ ⟨1, 0⟩ 10 0
    (by decide) (by decide)).1 (by decide) (by decide) (by decide) (by decide)

/-- C6: when no channel reads below the range, both variants report
`triggered = false` and return the caller's command unchanged. -/
theorem no_trip_identity (s : IrSnapshot) (p : VelocityProfile)
    (cmd : VelocityCommand) (range : ℚ) (r : ℕ)
    (h1 : range ≤ s.center) (h2 : range ≤ s.right) (h3 : range ≤ s.left)
    (h4 : range ≤ s.cright) (h5 : range ≤ s.cleft) (_h6 : range ≤ s.back) :
    avoidObstacleMove s p cmd range r = (cmd, false) ∧
    avoidObstacleStop s p cmd range r = (cmd, false) := by
  simp [avoidObstacleMove, avoidObstacleStop, avoidMoveCore, avoidStopCore,
    h1.not_lt, h2.not_lt, h3.not_lt, h4.not_lt, h5.not_lt]

theorem no_trip_identity_witness :
    avoidObstacleMove ⟨20, 20, 20, 20, 20, 20⟩ ⟨1, 1, 3, 4⟩ ⟨1, 2⟩ 10 0 = (⟨1, 2⟩, false) ∧
    avoidObstacleStop ⟨20, 20, 20, 20, 20, 20⟩ ⟨1, 1, 3, 4⟩ ⟨1, 2⟩ 10 0 = (⟨1, 2⟩, false) :=
  no_trip_identity ⟨20, 20, 20, 20, 20, 20⟩ ⟨1, 1, 3, 4⟩ ⟨1, 2⟩ 10 0
    (by decide) (by decide) (by decide) (by decide) (by decide) (by decide)

/-- C7: right after construction every proximity reading is the zero
default, so for every strictly positive avoidance range both variants
report a triggered avoidance (the CENTER reading 0 is below any positive
range). -/
theorem startup_staleness_triggers (p : VelocityProfile) (cmd : VelocityCommand)
    (range : ℚ) (r : ℕ) (h : 0 < range) :
    irSensorVals initialIrSnapshot = [0, 0, 0, 0, 0, 0] ∧
    (avoidObstacleMove initialIrSnapshot p cmd range r).2 = true ∧
    (avoidObstacleStop initialIrSnapshot p cmd range r).2 = true := by
  refine ⟨rfl, ?_, ?_⟩ <;>
    simp [avoidObstacleMove, avoidObstacleStop, avoidMoveCore, avoidStopCore,
      initialIrSnapshot, h]

theorem startup_staleness_triggers_witness :
    irSensorVals initialIrSnapshot = [0, 0, 0, 0, 0, 0] ∧
    (avoidObstacleMove initialIrSnapshot ⟨1, 1, 3, 4⟩ ⟨1, 0⟩ 10 0).2 = true ∧
    (avoidObstacleStop initialIrSnapshot ⟨1, 1, 3, 4⟩ ⟨1, 0⟩ 10 0).2 = true :=
  startup_staleness_triggers ⟨1, 1, 3, 4⟩ ⟨1, 0⟩ 10 0 (by decide)

theorem avoidMoveCore_flag_eq (s : IrSnapshot) (p : VelocityProfile)
    (cmd cmd' : VelocityCommand) (range : ℚ) (r : ℕ) :
    (avoidMoveCore s p cmd range r).2.2 = (avoidMoveCore s p cmd' range r).2.2 := by
  unfold avoidMoveCore
  split_ifs <;> rfl

theorem avoidStopCore_flag_eq (s : IrSnapshot) (p : VelocityProfile)
    (cmd cmd' : VelocityCommand) (range : ℚ) (r : ℕ) :
    (avoidStopCore s p cmd range r).2.2 = (avoidStopCore s p cmd' range r).2.2 := by
  unfold avoidStopCore
  split_ifs <;> rfl

theorem avoidMoveCore_angular_eq (s : IrSnapshot) (p : VelocityProfile)
    (cmd cmd' : VelocityCommand) (range : ℚ) (r : ℕ)
    (h : (avoidMoveCore s p cmd range r).2.2 = true) :
    (avoidMoveCore s p cmd range r).2.1 = (avoidMoveCore s p cmd' range r).2.1 := by
  unfold avoidMoveCore at h ⊢
  split_ifs at h ⊢ <;> simp_all

theorem avoidStopCore_angular_eq (s : IrSnapshot) (p : VelocityProfile)
    (cmd cmd' : VelocityCommand) (range : ℚ) (r : ℕ)
    (h : (avoidStopCore s p cmd range r).2.2 = true) :
    (avoidStopCore s p cmd range r).2.1 = (avoidStopCore s p cmd' range r).2.1 := by
  unfold avoidStopCore at h ⊢
  split_ifs at h ⊢ <;> simp_all

theorem avoidObstacleMove_eq (s : IrSnapshot) (p : VelocityProfile)
    (cmd : VelocityCommand) (range : ℚ) (r : ℕ) :
    avoidObstacleMove s p cmd range r =
      if (avoidMoveCore s p cmd range r).2.2 then
        ((⟨p.obs_linear, (avoidMoveCore s p cmd range r).2.1⟩ : VelocityCommand), true)
      else (cmd, false) := by
  by_cases h : (avoidMoveCore s p cmd range r).2.2 = true
  · simp [avoidObstacleMove, h]
  · have h' : (avoidMoveCore s p cmd range r).2.2 = false := by simpa using h
    have hc : avoidMoveCore s p cmd range r = (cmd.linear, cmd.angular, false) := by
      unfold avoidMoveCore at h' ⊢
      split_ifs at h' ⊢ <;> simp_all
    simp [avoidObstacleMove, hc]

theorem avoidObstacleStop_eq (s : IrSnapshot) (p : VelocityProfile)
    (cmd : VelocityCommand) (range : ℚ) (r : ℕ) :
    avoidObstacleStop s p cmd range r =
      if (avoidStopCore s p cmd range r).2.2 then
        ((⟨0, (avoidStopCore s p cmd range r).2.1⟩ : VelocityCommand), true)
      else (cmd, false) := by
  by_cases h : (avoidStopCore s p cmd range r).2.2 = true
  · simp [avoidObstacleStop, h]
  · have h' : (avoidStopCore s p cmd range r).2.2 = false := by simpa using h
    have hc : avoidStopCore s p cmd range r = (cmd.linear, cmd.angular, false) := by
      unfold avoidStopCore at h' ⊢
      split_ifs at h' ⊢ <;> simp_all
    simp [avoidObstacleStop, hc]

/-- C8: with the snapshot unchanged and the same random draw (a fixed RNG
seed), evaluating a variant a second time — on the command the first
evaluation produced, as the source's by-reference mutation does — returns
exactly the first evaluation's command and flag. -/
theorem avoid_idempotent (s : IrSnapshot) (p : VelocityProfile)
    (cmd : VelocityCommand) (range : ℚ) (r : ℕ) :
    avoidObstacleMove s p (avoidObstacleMove s p cmd range r).1 range r =
      avoidObstacleMove s p cmd range r ∧
    avoidObstacleStop s p (avoidObstacleStop s p cmd range r).1 range r =
      avoidObstacleStop s p cmd range r := by
  constructor
  · rw [avoidObstacleMove_eq s p cmd range r]
    by_cases hF : (avoidMoveCore s p cmd range r).2.2 = true
    · simp only [hF, if_true]
      rw [avoidObstacleMove_eq]
      have hF2 : (avoidMoveCore s p
          ⟨p.obs_linear, (avoidMoveCore s p cmd range r).2.1⟩ range r).2.2 = true :=
        (avoidMoveCore_flag_eq s p _ cmd range r).trans hF
      simp only [hF2, if_true]
      rw [avoidMoveCore_angular_eq s p
        (⟨p.obs_linear, (avoidMoveCore s p cmd range r).2.1⟩ : VelocityCommand)
        cmd range r hF2]
    · rw [if_neg hF]
      show avoidObstacleMove s p cmd range r = (cmd, false)
      rw [avoidObstacleMove_eq s p cmd range r, if_neg hF]
  · rw [avoidObstacleStop_eq s p cmd range r]
    by_cases hF : (avoidStopCore s p cmd range r).2.2 = true
    · simp only [hF, if_true]
      rw [avoidObstacleStop_eq]
      have hF2 : (avoidStopCore s p
          ⟨0, (avoidStopCore s p cmd range r).2.1⟩ range r).2.2 = true :=
        (avoidStopCore_flag_eq s p _ cmd range r).trans hF
      simp only [hF2, if_true]
      rw [avoidStopCore_angular_eq s p
        (⟨0, (avoidStopCore s p cmd range r).2.1⟩ : VelocityCommand)
        cmd range r hF2]
    · rw [if_neg hF]
      show avoidObstacleStop s p cmd range r = (cmd, false)
      rw [avoidObstacleStop_eq s p cmd range r, if_neg hF]

/-- C9: every triggered branch of either variant returns an angular that is
exactly `+obs_angular` or `-obs_angular`, the random tie-break included. -/
theorem triggered_angular_magnitude (s : IrSnapshot) (p : VelocityProfile)
    (cmd : VelocityCommand) (range : ℚ) (r : ℕ) :
    ((avoidObstacleMove s p cmd range r).2 = true →
      (avoidObstacleMove s p cmd range r).1.angular = p.obs_angular ∨
      (avoidObstacleMove s p cmd range r).1.angular = -p.obs_angular) ∧
    ((avoidObstacleStop s p cmd range r).2 = true →
      (avoidObstacleStop s p cmd range r).1.angular = p.obs_angular ∨
      (avoidObstacleStop s p cmd range r).1.angular = -p.obs_angular) := by
  refine ⟨fun h => ?_, fun h => ?_⟩ <;>
    · simp only [avoidObstacleMove, avoidObstacleStop, avoidMoveCore, avoidStopCore,
        moveCenterSub, randomTurn] at h ⊢
      split_ifs at h ⊢ <;> simp [neg_one_mul]

theorem triggered_angular_magnitude_witness :
    ((avoidObstacleMove ⟨0, 0, 0, 0, 0, 0⟩ ⟨1, 1, 3, 4⟩ ⟨1, 0⟩ 10 0).1.angular = 4 ∨
      (avoidObstacleMove ⟨0, 0, 0, 0, 0, 0⟩ ⟨1, 1, 3, 4⟩ ⟨1, 0⟩ 10 0).1.angular = -4) ∧
    ((avoidObstacleStop ⟨0, 0, 0, 0, 0, 0⟩ ⟨1, 1, 3, 4⟩ ⟨1, 0⟩ 10 0).1.angular = 4 ∨
      (avoidObstacleStop ⟨0, 0, 0, 0, 0, 0⟩ ⟨1, 1, 3, 4⟩ ⟨1, 0⟩ 10 0).1.angular = -4) :=
  ⟨(triggered_angular_magnitude ⟨0, 0, 0, 0, 0, 0⟩ ⟨1, 1, 3, 4⟩ ⟨1, 0⟩ 10 0).1 (by decide),
   (triggered_angular_magnitude ⟨0, 0, 0, 0, 0, 0⟩ ⟨1, 1, 3, 4⟩ ⟨1, 0⟩ 10 0).2 (by decide)⟩

/-- C10: the BACK reading never influences either variant — two snapshots
equal on every channel but BACK produce identical results given the same
profile, command, range and draw — and a snapshot in which only BACK reads
below the range yields `triggered = false` with the command unchanged. -/
theorem back_channel_noninterference :
    (∀ (s1 s2 : IrSnapshot) (p : VelocityProfile) (cmd : VelocityCommand)
        (range : ℚ) (r : ℕ),
      s1.center = s2.center → s1.right = s2.right → s1.left = s2.left →
      s1.cright = s2.cright → s1.cleft = s2.cleft →
      avoidObstacleMove s1 p cmd range r = avoidObstacleMove s2 p cmd range r ∧
      avoidObstacleStop s1 p cmd range r = avoidObstacleStop s2 p cmd range r) ∧
    (∀ (s : IrSnapshot) (p : VelocityProfile) (cmd : VelocityCommand)
        (range : ℚ) (r : ℕ),
      range ≤ s.center → range ≤ s.right → range ≤ s.left →
      range ≤ s.cright → range ≤ s.cleft → s.back < range →
      avoidObstacleMove s p cmd range r = (cmd, false) ∧
      avoidObstacleStop s p cmd range r = (cmd, false)) := by
  constructor
  · rintro ⟨c1, r1, l1, cr1, cl1, b1⟩ ⟨c2, r2, l2, cr2, cl2, b2⟩ p cmd range r
      h1 h2 h3 h4 h5
    dsimp only at h1 h2 h3 h4 h5
    subst h1; subst h2; subst h3; subst h4; subst h5
    exact ⟨rfl, rfl⟩
  · intro s p cmd range r h1 h2 h3 h4 h5 _h6
    simp [avoidObstacleMove, avoidObstacleStop, avoidMoveCore, avoidStopCore,
      h1.not_lt, h2.not_lt, h3.not_lt, h4.not_lt, h5.not_lt]

theorem back_channel_noninterference_witness :
    avoidObstacleMove ⟨20, 20, 20, 20, 20, 0⟩ ⟨1, 1, 3, 4⟩ ⟨1, 2⟩ 10 0 =
      avoidObstacleMove ⟨20, 20, 20, 20, 20, 20⟩ ⟨1, 1, 3, 4⟩ ⟨1, 2⟩ 10 0 ∧
    avoidObstacleStop ⟨20, 20, 20, 20, 20, 0⟩ ⟨1, 1, 3, 4⟩ ⟨1, 2⟩ 10 0 =
      (⟨1, 2⟩, false) :=
  ⟨(back_channel_noninterference.1 ⟨20, 20, 20, 20, 20, 0⟩ ⟨20, 20, 20, 20, 20, 20⟩
      ⟨1, 1, 3, 4⟩ ⟨1, 2⟩ 10 0 rfl rfl rfl rfl rfl).1,
   (back_channel_noninterference.2 ⟨20, 20, 20, 20, 20, 0⟩ ⟨1, 1, 3, 4⟩ ⟨1, 2⟩ 10 0
      (by decide) (by decide) (by decide) (by decide) (by decide) (by decide)).2⟩

/-- C2: the counting loop of `irSensorTriggered` iterates seven indices
(0..6) while `ir_sensor_vals_` holds six slots, so the loop's last index is
out of bounds: index 6 is visited, the container length is 6, and the read
at index 6 observes whatever lies beyond the buffer (here made visible as
the `getD` fallback). -/
theorem irSensor_loop_reads_out_of_bounds :
    6 ∈ List.range irLoopBound ∧
    (irSensorVals initialIrSnapshot).length = 6 ∧
    (irSensorVals initialIrSnapshot).getD 6 42 = 42 := by
  decide

example :
    avoidObstacleMove ⟨20, 3, 20, 20, 20, 20⟩ ⟨1, 1, 3, 4⟩ ⟨1, 0⟩ 10 0 =
    (⟨3, -4⟩, true) := by
  norm_num [avoidObstacleMove, avoidMoveCore, moveCenterSub, randomTurn]
